import Mathlib

/-!
Verification of the MRIPreprocess orchestration layer.

Shallow embedding of the preprocessing pipeline sources
(`src/preprocessing/*.py`, `src/pipeline.py`):
volumetric images are modelled as flat lists of rational voxel
intensities, the per-subject `ProcessingData` container as a Lean
structure mirroring the Python dictionaries, and every external ANTs /
ANTsPyNet call as a field of an abstract `Engine` record of total
functions (the numerics of the engine are out of scope; only the
orchestration logic is translated).  The `run` of each stage is a function
`ProcessingData → ProcessingData × Option String`, returning the
container state after all mutations performed before a potential raise
(Python mutates in place, so mutations made before an exception
persist) together with the raised error, if any.
-/

namespace MRIPreprocess

/-- A volumetric image, flattened to its list of voxel intensities.
Rational numbers stand in for the floating-point values of the engine. -/
abbrev Img := List ℚ

/-- A list of transform descriptors, as returned by the registration
engine (`fwdtransforms` / `invtransforms` are lists of file paths). -/
abbrev TList := List String

/-- Interpolator argument of `ants.apply_transforms`. -/
inductive Interp where
  | linear
  | nearestNeighbor
deriving DecidableEq

/-- The fixed keys of the `native` dictionary in
`ProcessingData.__init__` (`processing_data.py` lines 30-38); the
`template` dictionary shares all of them except `original_image` and
additionally holds `roi_labels` / `roi_features`. -/
inductive FieldName where
  | image
  | original_image
  | brain_mask
  | segmentation_labels
  | gm_probability
  | wm_probability
  | csf_probability
deriving DecidableEq

/-- Feature array produced by ROI extraction: a `[num_rois × num_stats]`
matrix, or a 1-D vector after `features.flatten()` when exactly one
statistic is configured. -/
inductive FeatArray where
  | mat (rows : List (List ℚ))
  | flat (vals : List ℚ)
deriving DecidableEq

/-- The `roi_features` value: a dictionary from feature-set name
(`"gm_features"`, `"wm_features"`) to a feature array. -/
abbrev RoiFeatures := List (String × FeatArray)

/-- The `native` dictionary (fixed keys, values absent or an image). -/
structure NativeMap where
  image : Option Img
  original_image : Option Img
  brain_mask : Option Img
  segmentation_labels : Option Img
  gm_probability : Option Img
  wm_probability : Option Img
  csf_probability : Option Img
deriving DecidableEq

/-- The `template` dictionary.  `original_image` is not among its keys
at construction; Python would add the key if
`transform_to_template("original_image")` ever fired, so it is carried
here as an initially-absent field. -/
structure TemplateMap where
  image : Option Img
  brain_mask : Option Img
  segmentation_labels : Option Img
  gm_probability : Option Img
  wm_probability : Option Img
  csf_probability : Option Img
  roi_labels : Option Img
  roi_features : Option RoiFeatures
  original_image : Option Img
deriving DecidableEq

/-- The `transforms` dictionary. -/
structure Transforms where
  native_to_template : Option TList
  template_to_native : Option TList
deriving DecidableEq

/-- The `pet` dictionary that `pet_processor.py` and `pipeline.py` read
(keys `original`, `registered_to_mri`, `skull_stripped`, `mni`). -/
structure PetMap where
  original : Option Img
  registered_to_mri : Option Img
  skull_stripped : Option Img
  mni : Option Img
deriving DecidableEq

/-- The `qc_metrics` dictionary written by the QualityControl stage:
each metric key is present or absent, plus the copied step list and its
length. -/
structure QcMetrics where
  snr : Option ℚ
  registration_mi : Option ℚ
  gm_volume : Option ℚ
  wm_volume : Option ℚ
  processing_steps : List String
  num_steps : ℕ
deriving DecidableEq

/-- Initial (empty-dictionary) value of `qc_metrics`. -/
def QcMetrics.empty : QcMetrics :=
  { snr := none, registration_mi := none, gm_volume := none,
    wm_volume := none, processing_steps := [], num_steps := 0 }

/-- The per-subject container of `processing_data.py`.  The `pet` field
models the Python attribute `data.pet`: `none` means the attribute does
not exist on the object (reading it raises `AttributeError`).
`ProcessingData.__init__` in the source never creates it. -/
structure ProcessingData where
  subject_id : String
  native : NativeMap
  template : TemplateMap
  transforms : Transforms
  processing_steps : List String
  qc_metrics : QcMetrics
  pet : Option PetMap
deriving DecidableEq

/-- `ProcessingData.__init__(primary_image, subject_id)`
(`processing_data.py` lines 19-60).  Note: the constructor takes no PET
argument and creates no `pet` attribute, although `pipeline.py` line
145 passes a third argument and `pet_processor.py` reads `data.pet`. -/
def ProcessingData.init (primary_image : Img) (subject_id : String) :
    ProcessingData :=
  { subject_id := subject_id
    native :=
      { image := some primary_image
        original_image := some primary_image
        brain_mask := none
        segmentation_labels := none
        gm_probability := none
        wm_probability := none
        csf_probability := none }
    template :=
      { image := none
        brain_mask := none
        segmentation_labels := none
        gm_probability := none
        wm_probability := none
        csf_probability := none
        roi_labels := none
        roi_features := none
        original_image := none }
    transforms := { native_to_template := none, template_to_native := none }
    processing_steps := []
    qc_metrics := QcMetrics.empty
    pet := none }

/-- Dictionary read `self.native[field_name]`. -/
def NativeMap.get (n : NativeMap) : FieldName → Option Img
  | .image => n.image
  | .original_image => n.original_image
  | .brain_mask => n.brain_mask
  | .segmentation_labels => n.segmentation_labels
  | .gm_probability => n.gm_probability
  | .wm_probability => n.wm_probability
  | .csf_probability => n.csf_probability

/-- Dictionary write `self.template[field_name] = img`. -/
def TemplateMap.set (t : TemplateMap) : FieldName → Img → TemplateMap
  | .image, v => { t with image := some v }
  | .original_image, v => { t with original_image := some v }
  | .brain_mask, v => { t with brain_mask := some v }
  | .segmentation_labels, v => { t with segmentation_labels := some v }
  | .gm_probability, v => { t with gm_probability := some v }
  | .wm_probability, v => { t with wm_probability := some v }
  | .csf_probability, v => { t with csf_probability := some v }

/-- Result dictionary of `ants.registration`. -/
structure RegResult where
  warpedmovout : Img
  fwdtransforms : TList
  invtransforms : TList
deriving DecidableEq

/-- `type_of_transform` argument of `ants.registration`. -/
inductive RegType where
  | SyN
  | Affine
  | Rigid
deriving DecidableEq

/-- The external image-processing engine (ANTs / ANTsPyNet), abstracted
as total functions; the orchestration layer treats these calls as black
boxes.  `sqrtQ` stands in for the floating-point square root used by
`np.std`. -/
structure Engine where
  applyTransforms : Img → Img → TList → Interp → Img
  registration : Img → Img → RegType → RegResult
  brainExtraction : Img → Img
  getMask : Img → ℚ → Img
  imageMutualInformation : Img → Img → ℚ
  sqrtQ : ℚ → ℚ

/-- Voxelwise image product (`image * mask` on ANTs images). -/
def imgMul (a b : Img) : Img := List.zipWith (· * ·) a b

/-- `ProcessingData.transform_to_template(field_name, interpolator)`
(`processing_data.py` lines 62-79): returns immediately if
`transforms["native_to_template"]` is `None`; otherwise writes the
transformed field only when both `native[field_name]` and
`template["image"]` are present. -/
def ProcessingData.transform_to_template (d : ProcessingData) (e : Engine)
    (field_name : FieldName) (interpolator : Interp) : ProcessingData :=
  match d.transforms.native_to_template with
  | none => d
  | some tl =>
    match d.native.get field_name, d.template.image with
    | some mov, some fix =>
        { d with template :=
            d.template.set field_name (e.applyTransforms fix mov tl interpolator) }
    | _, _ => d

/-- `ProcessingData.has_brain_extraction()`. -/
def ProcessingData.has_brain_extraction (d : ProcessingData) : Bool :=
  d.native.brain_mask.isSome

/-- `ProcessingData.has_registration()`. -/
def ProcessingData.has_registration (d : ProcessingData) : Bool :=
  d.template.image.isSome

/-- `ProcessingData.has_segmentation()`: probability data in either
space. -/
def ProcessingData.has_segmentation (d : ProcessingData) : Bool :=
  d.native.gm_probability.isSome || d.template.gm_probability.isSome

/-! ### Skull stripping (`skull_stripping.py`)

The dispatcher of `BaseProcessor.run_methods` executes every enabled
method in the declaration order of the stage (`antspynet`, then `ants`);
`save_intermediate` only writes files and is not modelled. -/

/-- Configuration of the skull-stripping stage: the `enabled` flag of
each registered method and the `threshold` parameter of the `ants`
method (the `config.get` call with default 0.1 applied by the caller). -/
structure SkullConfig where
  antspynet_enabled : Bool
  ants_enabled : Bool
  threshold : ℚ
deriving DecidableEq

namespace SkullStripping

/-- `SkullStripping.antspynet_extraction` (lines 34-52): computes a
brain mask with the engine, replaces `native["image"]` by
`image * mask`, stores the mask, and appends `"skull_stripping"`.
A `None` native image makes the Python call raise before any
mutation. -/
def antspynet_extraction (e : Engine) (d : ProcessingData) :
    ProcessingData × Option String :=
  match d.native.image with
  | none => (d, some "AttributeError: native image is None")
  | some img =>
    let brain_mask := e.brainExtraction img
    let brain_image := imgMul img brain_mask
    ({ d with
        native := { d.native with
          image := some brain_image, brain_mask := some brain_mask }
        processing_steps := d.processing_steps ++ ["skull_stripping"] },
     none)

/-- `SkullStripping.ants_extraction` (lines 54-69): threshold-based
mask via `ants.get_mask`, otherwise identical effect. -/
def ants_extraction (e : Engine) (threshold : ℚ) (d : ProcessingData) :
    ProcessingData × Option String :=
  match d.native.image with
  | none => (d, some "AttributeError: native image is None")
  | some img =>
    let brain_mask := e.getMask img threshold
    let brain_image := imgMul img brain_mask
    ({ d with
        native := { d.native with
          image := some brain_image, brain_mask := some brain_mask }
        processing_steps := d.processing_steps ++ ["skull_stripping"] },
     none)

/-- `SkullStripping.run` = `BaseProcessor.run_methods` over the two
registered methods in declaration order; an exception in one method
aborts the loop with all earlier mutations kept. -/
def run (e : Engine) (cfg : SkullConfig) (d : ProcessingData) :
    ProcessingData × Option String :=
  let r1 := if cfg.antspynet_enabled then antspynet_extraction e d else (d, none)
  match r1 with
  | (d1, some err) => (d1, some err)
  | (d1, none) =>
    if cfg.ants_enabled then ants_extraction e cfg.threshold d1 else (d1, none)

end SkullStripping

/-! ### Numpy helpers used by segmentation, ROI extraction and QC -/

/-- `np.sort` / the ascending order used by `np.percentile` and
`np.unique`. -/
def npSort (l : List ℚ) : List ℚ := l.insertionSort (· ≤ ·)

/-- `np.percentile(a, q)` with the default linear interpolation:
position `q/100 * (n-1)` between the sorted order statistics. -/
def npPercentile (l : List ℚ) (q : ℚ) : ℚ :=
  let s := npSort l
  if s.length = 0 then 0
  else
    let pos : ℚ := q / 100 * ((s.length : ℚ) - 1)
    let i : ℕ := pos.floor.toNat
    let g : ℚ := pos - (i : ℚ)
    let lo := s.getD i 0
    let hi := s.getD (i + 1) lo
    lo + g * (hi - lo)

/-- `np.unique`: sorted ascending list of distinct values. -/
def npUnique (l : List ℚ) : List ℚ := (npSort l).dedup

/-- `np.mean` (junk value on the empty list, where numpy yields nan). -/
def npMean (l : List ℚ) : ℚ := l.sum / l.length

/-- Population variance, the square of `np.std`. -/
def npVar (l : List ℚ) : ℚ := npMean (l.map fun v => (v - npMean l) ^ 2)

/-- `np.median` = 50th percentile with linear interpolation. -/
def npMedian (l : List ℚ) : ℚ := npPercentile l 50

/-- Vectorised masked assignment `arr[cond(img)] = v` over parallel
flat arrays. -/
def maskedAssign (arr img : List ℚ) (cond : ℚ → Bool) (v : ℚ) : List ℚ :=
  (arr.zip img).map fun p => if cond p.2 then v else p.1

/-! ### Segmentation (`segmentation.py`) -/

/-- Result dictionary of `ants.atropos` / `_simple_segmentation`:
`segmentation` label image and `probabilityimages` list. -/
structure SegResult where
  segmentation : Img
  probabilityimages : List Img
deriving DecidableEq

namespace Segmentation

/-- The mask-multiplied working image of `_simple_segmentation`
(lines 101-106): `img_data = image.numpy()`, multiplied by the brain
mask when one is present. -/
def masked_image (img : Img) (brain_mask : Option Img) : Img :=
  match brain_mask with
  | some m => imgMul img m
  | none => img

/-- `Segmentation._simple_segmentation` (lines 94-137): percentile
thresholding over the positive voxels of the masked image; raises
exactly when no positive voxel exists. -/
def simple_segmentation (d : ProcessingData) : Except String SegResult :=
  match d.native.image with
  | none => .error "AttributeError: native image is None"
  | some img =>
    let img_data := masked_image img d.native.brain_mask
    let brain_voxels := img_data.filter fun v => 0 < v
    if brain_voxels.length = 0 then
      .error "No brain voxels found for segmentation"
    else
      let p33 := npPercentile brain_voxels 33
      let p66 := npPercentile brain_voxels 66
      let zeros := List.replicate img_data.length (0 : ℚ)
      let s1 := maskedAssign zeros img_data (fun v => 0 < v) 1
      let s2 := maskedAssign s1 img_data (fun v => p33 < v) 2
      let seg_labels := maskedAssign s2 img_data (fun v => p66 < v) 3
      let csf_prob := seg_labels.map fun v => if v = 1 then (1 : ℚ) else 0
      let gm_prob := seg_labels.map fun v => if v = 2 then (1 : ℚ) else 0
      let wm_prob := seg_labels.map fun v => if v = 3 then (1 : ℚ) else 0
      .ok { segmentation := seg_labels
            probabilityimages := [csf_prob, gm_prob, wm_prob] }

/-- Lines 83-92 of `_atropos_segmentation`: store the result in native
space.  The labels are always stored; the three tissue fields only when
the classifier returned at least three probability images (the first
three are used); then the log entry is appended. -/
def applyResult (d : ProcessingData) (seg_result : SegResult) : ProcessingData :=
  let d1 := { d with native :=
    { d.native with segmentation_labels := some seg_result.segmentation } }
  let d2 :=
    if 3 ≤ seg_result.probabilityimages.length then
      { d1 with native := { d1.native with
          csf_probability := seg_result.probabilityimages.get? 0
          gm_probability := seg_result.probabilityimages.get? 1
          wm_probability := seg_result.probabilityimages.get? 2 } }
    else d1
  { d2 with processing_steps := d2.processing_steps ++ ["segmentation"] }

/-- `Segmentation._atropos_segmentation` (lines 49-92): `primary` is
the outcome of the external `ants.atropos` call (an exception or a
result); any exception triggers `_simple_segmentation` as fallback. -/
def atropos_segmentation (primary : Except String SegResult)
    (d : ProcessingData) : ProcessingData × Option String :=
  match primary with
  | .ok seg_result => (applyResult d seg_result, none)
  | .error _ =>
    match simple_segmentation d with
    | .ok seg_result => (applyResult d seg_result, none)
    | .error err => (d, some err)

/-- `Segmentation.run` (lines 21-47): dispatch on the `atropos` method
flag; no enabled method is a `ValueError`. -/
def run (atropos_enabled : Bool) (primary : Except String SegResult)
    (d : ProcessingData) : ProcessingData × Option String :=
  if atropos_enabled then atropos_segmentation primary d
  else (d, some "No segmentation method enabled")

end Segmentation

/-! ### Registration (`registration.py`) -/

/-- The `enabled` flags of the three registration methods
(the `enabled` entry of each method in the configuration). -/
structure RegMethods where
  syn : Bool
  affine : Bool
  rigid : Bool
deriving DecidableEq

namespace Registration

/-- `Registration._load_template` (lines 23-37) over the lazily-cached
instance attribute: `cache` is `self.template`, `fs` the content of
the template path on disk (`none` = file missing).  Returns the new
cache and the template, or raises `FileNotFoundError`. -/
def load_template (cache fs : Option Img) : Except String (Option Img × Img) :=
  match cache with
  | some t => .ok (some t, t)
  | none =>
    match fs with
    | some t => .ok (some t, t)
    | none => .error "Template file not found"

/-- `Registration._transform_all_to_template` (lines 128-146): brain
mask and labels with nearest-neighbour, then the three probability maps
(`csf`, `gm`, `wm` order) with linear interpolation; each only when the
native field is present. -/
def transform_all_to_template (e : Engine) (d : ProcessingData) :
    ProcessingData :=
  let d1 := if d.native.brain_mask.isSome then
      d.transform_to_template e .brain_mask .nearestNeighbor else d
  let d2 := if d1.native.segmentation_labels.isSome then
      d1.transform_to_template e .segmentation_labels .nearestNeighbor else d1
  let d3 := if d2.native.csf_probability.isSome then
      d2.transform_to_template e .csf_probability .linear else d2
  let d4 := if d3.native.gm_probability.isSome then
      d3.transform_to_template e .gm_probability .linear else d3
  if d4.native.wm_probability.isSome then
      d4.transform_to_template e .wm_probability .linear else d4

/-- Lines 68-76 of `Registration.run`: store the warped image and both
transform lists, propagate every populated native field, append the log
entry. -/
def finish (e : Engine) (d : ProcessingData) (result : RegResult) :
    ProcessingData × Option String :=
  let d1 := { d with
    template := { d.template with image := some result.warpedmovout }
    transforms :=
      { native_to_template := some result.fwdtransforms
        template_to_native := some result.invtransforms } }
  let d2 := transform_all_to_template e d1
  ({ d2 with processing_steps := d2.processing_steps ++ ["registration"] }, none)

/-- `Registration.run` (lines 39-82): load the template (fatal if the
file is missing and not cached), then dispatch on the method flags in
the fixed order `syn`, `affine`, `rigid`; none enabled is a
`ValueError`. -/
def run (e : Engine) (methods : RegMethods) (cache fs : Option Img)
    (d : ProcessingData) : ProcessingData × Option String :=
  match load_template cache fs with
  | .error err => (d, some err)
  | .ok (_, tmpl) =>
    let runWith (ty : RegType) : ProcessingData × Option String :=
      match d.native.image with
      | none => (d, some "AttributeError: native image is None")
      | some mov => finish e d (e.registration tmpl mov ty)
    if methods.syn then runWith .SyN
    else if methods.affine then runWith .Affine
    else if methods.rigid then runWith .Rigid
    else (d, some "No registration method enabled")

end Registration

/-! ### PET processing (`pet_processor.py`)

`PETProcessor.run` starts by reading `data.pet["original"]`; on a
container built by `ProcessingData.__init__` the `pet` attribute does
not exist, so the read raises `AttributeError` (modelled by the `none`
case of the `pet` field). -/

namespace PETProcessor

/-- `PETProcessor._register_to_mri` (lines 67-82): rigid registration of
the PET onto the native MRI; skipped with a warning if the MRI image is
absent.  `pet` is the existing pet dictionary. -/
def register_to_mri (e : Engine) (d : ProcessingData) (pet : PetMap)
    (petOriginal : Img) : PetMap :=
  match d.native.image with
  | none => pet
  | some mri =>
    let result := e.registration mri petOriginal .Rigid
    { pet with registered_to_mri := some result.warpedmovout }

/-- `PETProcessor._apply_brain_mask` (lines 84-97): multiply by the
native brain mask when available, else fall back to the registered PET;
skipped if no registered PET exists. -/
def apply_brain_mask (d : ProcessingData) (pet : PetMap) : PetMap :=
  match pet.registered_to_mri with
  | none => pet
  | some reg =>
    match d.native.brain_mask with
    | some mask => { pet with skull_stripped := some (imgMul reg mask) }
    | none => { pet with skull_stripped := some reg }

/-- `PETProcessor._transform_to_mni` (lines 99-122): apply the MRI
native-to-template transform; skipped with a warning if the
skull-stripped PET, the transform, or the template image is absent. -/
def transform_to_mni (e : Engine) (d : ProcessingData) (pet : PetMap) : PetMap :=
  match pet.skull_stripped with
  | none => pet
  | some ss =>
    match d.transforms.native_to_template with
    | none => pet
    | some tl =>
      match d.template.image with
      | none => pet
      | some fix =>
        { pet with mni := some (e.applyTransforms fix ss tl .linear) }

/-- `PETProcessor.run` (lines 28-65): pass-through (no mutation, no log
entry) when `pet["original"]` is `None`; otherwise the three steps and
the `"pet_processing"` log entry.  Reading `data.pet` raises
`AttributeError` when the attribute was never created. -/
def run (e : Engine) (d : ProcessingData) : ProcessingData × Option String :=
  match d.pet with
  | none =>
      (d, some "AttributeError: ProcessingData object has no attribute pet")
  | some pet =>
    match pet.original with
    | none => (d, none)
    | some petOriginal =>
      let p1 := register_to_mri e d pet petOriginal
      let p2 := apply_brain_mask d p1
      let p3 := transform_to_mni e d p2
      ({ d with pet := some p3
                processing_steps := d.processing_steps ++ ["pet_processing"] },
       none)

end PETProcessor

/-! ### ROI extraction (`roi_extraction.py`) -/

/-- A configured statistic (`statistics` entry of the ROI
configuration). -/
inductive Stat where
  | mean
  | std
  | volume
  | median
deriving DecidableEq

/-- Value of one statistic over one ROI: `roi_values` are the tissue
probabilities at the voxels of the ROI, `roi_count` is `np.sum(roi_mask)`. -/
def statValue (e : Engine) (stat : Stat) (roi_values : List ℚ)
    (roi_count : ℕ) : ℚ :=
  match stat with
  | .mean => npMean roi_values
  | .std => e.sqrtQ (npVar roi_values)
  | .volume => (roi_count : ℚ)
  | .median => npMedian roi_values

namespace ROIExtraction

/-- `ROIExtraction._load_atlas` (lines 24-38) over the lazily-cached
instance attribute, like `Registration.load_template`. -/
def load_atlas (cache fs : Option Img) : Except String (Option Img × Img) :=
  match cache with
  | some a => .ok (some a, a)
  | none =>
    match fs with
    | some a => .ok (some a, a)
    | none => .error "Atlas file not found"

/-- Tissue probabilities at the voxels of one ROI
(`tissue_data[atlas_data == roi_id]`). -/
def roi_values (tissue_data atlas_data : List ℚ) (roi_id : ℚ) : List ℚ :=
  (tissue_data.zip atlas_data).filterMap fun p =>
    if p.2 = roi_id then some p.1 else none

/-- Voxel count of one ROI (`np.sum(atlas_data == roi_id)`). -/
def roi_count (atlas_data : List ℚ) (roi_id : ℚ) : ℕ :=
  (atlas_data.filter fun v => v = roi_id).length

/-- `ROIExtraction._extract_features_for_tissue` (lines 115-143): a
`[num_rois × num_stats]` matrix, flattened when exactly one statistic
is configured.  `statistics` already carries the mean-only default of
`config.get`. -/
def extract_features_for_tissue (e : Engine) (statistics : List Stat)
    (tissue_data atlas_data : List ℚ) (roi_labels : List ℚ) : FeatArray :=
  let rows := roi_labels.map fun roi_id =>
    statistics.map fun stat =>
      statValue e stat (roi_values tissue_data atlas_data roi_id)
        (roi_count atlas_data roi_id)
  if statistics.length = 1 then .flat rows.flatten else .mat rows

/-- The ROI label list of `_extract_roi_features` (lines 85-87):
`np.unique(atlas_data)` restricted to positive values. -/
def positive_labels (atlas_data : List ℚ) : List ℚ :=
  (npUnique atlas_data).filter fun v => 0 < v

/-- `ROIExtraction._extract_roi_features` (lines 78-113): one entry per
tissue, for the GM and WM template-space probability maps only. -/
def extract_roi_features (e : Engine) (statistics : List Stat)
    (atlas : Img) (d : ProcessingData) : RoiFeatures :=
  let atlas_data := atlas
  let roi_labels := positive_labels atlas_data
  let f0 : RoiFeatures := []
  let f1 :=
    match d.template.gm_probability with
    | some gm_data =>
        f0 ++ [("gm_features",
                extract_features_for_tissue e statistics gm_data atlas_data roi_labels)]
    | none => f0
  match d.template.wm_probability with
  | some wm_data =>
      f1 ++ [("wm_features",
              extract_features_for_tissue e statistics wm_data atlas_data roi_labels)]
  | none => f1

/-- `ROIExtraction.run` (lines 40-76): hard preconditions, lazy atlas
load, feature extraction, log entry.  `statistics` is the configured
list, `none` when the key is absent (the `config.get` call with the
default list containing only `mean`). -/
def run (e : Engine) (statistics : Option (List Stat)) (cache fs : Option Img)
    (d : ProcessingData) : ProcessingData × Option String :=
  if !d.has_segmentation then
    (d, some "ROI extraction requires segmentation results")
  else if !d.has_registration then
    (d, some "ROI extraction requires registration to template space")
  else
    match load_atlas cache fs with
    | .error err => (d, some err)
    | .ok (_, atlas) =>
      let feats := extract_roi_features e (statistics.getD [.mean]) atlas d
      ({ d with
          template := { d.template with roi_features := some feats }
          processing_steps := d.processing_steps ++ ["roi_extraction"] },
       none)

end ROIExtraction

/-! ### Quality control (`quality_control.py`)

Threshold checking and report generation only print warnings / write
files and are not modelled. -/

namespace QualityControl

/-- `QualityControl._calculate_image_quality` (lines 73-96): SNR =
mean inside the brain mask over standard deviation of the background;
omitted unless a mask is present, the background is non-empty and its
deviation positive.  Reading `native["image"]` when it is `None` would
raise in Python (unreachable from `__init__`). -/
def calculate_image_quality (e : Engine) (d : ProcessingData) :
    Except String (Option ℚ) :=
  match d.native.brain_mask with
  | none => .ok none
  | some mask =>
    match d.native.image with
    | none => .error "AttributeError: native image is None"
    | some img =>
      let pairs := img.zip mask
      let inBrain := pairs.filterMap fun p => if 0 < p.2 then some p.1 else none
      let background := pairs.filterMap fun p => if p.2 = 0 then some p.1 else none
      let signal := npMean inBrain
      if background.length = 0 then .ok none
      else
        let noise := e.sqrtQ (npVar background)
        if 0 < noise then .ok (some (signal / noise)) else .ok none

/-- `QualityControl._calculate_registration_quality` (lines 98-130):
mutual information against the lazily-loaded reference template;
omitted when the reference cannot be obtained. -/
def calculate_registration_quality (e : Engine) (cache fs : Option Img)
    (d : ProcessingData) : Option ℚ :=
  match (match cache with | some t => some t | none => fs), d.template.image with
  | some tmpl, some timg => some (e.imageMutualInformation timg tmpl)
  | _, _ => none

/-- `QualityControl._calculate_segmentation_quality` (lines 132-154):
tissue volumes as counts of probability `> 0.5`, from template space if
registration succeeded else native space. -/
def calculate_segmentation_quality (d : ProcessingData) :
    Option ℚ × Option ℚ :=
  let gm := if d.has_registration then d.template.gm_probability
            else d.native.gm_probability
  let wm := if d.has_registration then d.template.wm_probability
            else d.native.wm_probability
  (gm.map fun g => ((g.filter fun v => 1/2 < v).length : ℚ),
   wm.map fun w => ((w.filter fun v => 1/2 < v).length : ℚ))

/-- `QualityControl.run` (lines 28-71): compute the metric dictionary
(each metric only when its prerequisite holds), replace `qc_metrics`
wholesale, append the log entry.  `has_template_path` is whether
the `template` key is in the configuration; `cache`/`fs` as for the other
lazily-loaded resources. -/
def run (e : Engine) (has_template_path : Bool) (cache fs : Option Img)
    (d : ProcessingData) : ProcessingData × Option String :=
  let snrResult :=
    if d.native.original_image.isSome then calculate_image_quality e d
    else .ok none
  match snrResult with
  | .error err => (d, some err)
  | .ok snr =>
    let mi :=
      if d.has_registration && has_template_path then
        calculate_registration_quality e cache fs d
      else none
    let vols :=
      if d.has_segmentation then calculate_segmentation_quality d
      else (none, none)
    let metrics : QcMetrics :=
      { snr := snr
        registration_mi := mi
        gm_volume := vols.1
        wm_volume := vols.2
        processing_steps := d.processing_steps
        num_steps := d.processing_steps.length }
    ({ d with qc_metrics := metrics
              processing_steps := d.processing_steps ++ ["quality_control"] },
     none)

end QualityControl

/-! ### Stage operations and reachability

A stage operation is a stage `run` together with the nondeterministic
data it consumes: its configuration, the answers of the external engine for
this call (the atropos outcome), the lazy cache of the stage instance and
the relevant filesystem content.  `applyOp` returns the container after
the run plus the raised error, if any; the pipeline applies enabled
stages in a fixed order, so every container state produced by the
orchestrator is reachable from `ProcessingData.init` by a sequence of
`applyOp` steps. -/

/-- One stage operation with its inputs. -/
inductive Op where
  | skull (cfg : SkullConfig)
  | seg (atropos_enabled : Bool) (primary : Except String SegResult)
  | reg (methods : RegMethods) (cache fs : Option Img)
  | pet
  | roi (statistics : Option (List Stat)) (cache fs : Option Img)
  | qc (has_template_path : Bool) (cache fs : Option Img)

/-- Run one stage operation. -/
def applyOp (e : Engine) : Op → ProcessingData → ProcessingData × Option String
  | .skull cfg, d => SkullStripping.run e cfg d
  | .seg en primary, d => Segmentation.run en primary d
  | .reg methods cache fs, d => Registration.run e methods cache fs d
  | .pet, d => PETProcessor.run e d
  | .roi statistics cache fs, d => ROIExtraction.run e statistics cache fs d
  | .qc htp cache fs, d => QualityControl.run e htp cache fs d

/-- Container states reachable by running stage operations on a freshly
constructed container. -/
inductive Reachable (e : Engine) : ProcessingData → Prop where
  | init (img : Img) (sid : String) : Reachable e (ProcessingData.init img sid)
  | step (op : Op) {d : ProcessingData} :
      Reachable e d → Reachable e (applyOp e op d).1

/-- Some template-space field is populated. -/
def templateTouched (t : TemplateMap) : Bool :=
  t.image.isSome || t.brain_mask.isSome || t.segmentation_labels.isSome ||
  t.gm_probability.isSome || t.wm_probability.isSome ||
  t.csf_probability.isSome || t.roi_labels.isSome || t.roi_features.isSome ||
  t.original_image.isSome

/-! ### Frame lemmas -/

theorem transform_to_template_transforms (d : ProcessingData) (e : Engine)
    (f : FieldName) (i : Interp) :
    (d.transform_to_template e f i).transforms = d.transforms := by
  unfold ProcessingData.transform_to_template
  cases d.transforms.native_to_template with
  | none => rfl
  | some tl =>
    cases d.native.get f <;> cases d.template.image <;> rfl

theorem transform_to_template_native (d : ProcessingData) (e : Engine)
    (f : FieldName) (i : Interp) :
    (d.transform_to_template e f i).native = d.native := by
  unfold ProcessingData.transform_to_template
  cases d.transforms.native_to_template with
  | none => rfl
  | some tl =>
    cases d.native.get f <;> cases d.template.image <;> rfl

theorem transform_to_template_steps (d : ProcessingData) (e : Engine)
    (f : FieldName) (i : Interp) :
    (d.transform_to_template e f i).processing_steps = d.processing_steps := by
  unfold ProcessingData.transform_to_template
  cases d.transforms.native_to_template with
  | none => rfl
  | some tl =>
    cases d.native.get f <;> cases d.template.image <;> rfl

theorem transform_all_transforms (e : Engine) (d : ProcessingData) :
    (Registration.transform_all_to_template e d).transforms = d.transforms := by
  unfold Registration.transform_all_to_template
  simp only [apply_ite ProcessingData.transforms,
    transform_to_template_transforms, ite_self]

theorem transform_all_steps (e : Engine) (d : ProcessingData) :
    (Registration.transform_all_to_template e d).processing_steps =
      d.processing_steps := by
  unfold Registration.transform_all_to_template
  simp only [apply_ite ProcessingData.processing_steps,
    transform_to_template_steps, ite_self]

theorem skull_run_template (e : Engine) (cfg : SkullConfig)
    (d : ProcessingData) :
    (SkullStripping.run e cfg d).1.template = d.template ∧
    (SkullStripping.run e cfg d).1.transforms = d.transforms := by
  unfold SkullStripping.run SkullStripping.antspynet_extraction
    SkullStripping.ants_extraction
  cases h : d.native.image <;>
    cases cfg.antspynet_enabled <;> cases cfg.ants_enabled <;> simp [h]

theorem seg_run_template (en : Bool) (primary : Except String SegResult)
    (d : ProcessingData) :
    (Segmentation.run en primary d).1.template = d.template ∧
    (Segmentation.run en primary d).1.transforms = d.transforms := by
  unfold Segmentation.run Segmentation.atropos_segmentation
    Segmentation.applyResult
  cases en with
  | false => simp
  | true =>
    cases primary with
    | ok r => simp only [if_true]; split <;> simp
    | error err =>
      cases h : Segmentation.simple_segmentation d with
      | ok r => simp only [if_true, h]; split <;> simp
      | error e2 => simp [h]

theorem pet_run_template (e : Engine) (d : ProcessingData) :
    (PETProcessor.run e d).1.template = d.template ∧
    (PETProcessor.run e d).1.transforms = d.transforms := by
  unfold PETProcessor.run
  cases h : d.pet with
  | none => simp
  | some pet => cases hp : pet.original <;> simp [hp]

theorem qc_run_template (e : Engine) (htp : Bool) (cache fs : Option Img)
    (d : ProcessingData) :
    (QualityControl.run e htp cache fs d).1.template = d.template ∧
    (QualityControl.run e htp cache fs d).1.transforms = d.transforms := by
  unfold QualityControl.run
  split
  · cases h : QualityControl.calculate_image_quality e d <;> simp [h]
  · simp

theorem reg_finish_nt (e : Engine) (d : ProcessingData) (r : RegResult) :
    (Registration.finish e d r).1.transforms.native_to_template =
      some r.fwdtransforms := by
  unfold Registration.finish
  simp [transform_all_transforms]

theorem reg_finish_steps (e : Engine) (d : ProcessingData) (r : RegResult) :
    (Registration.finish e d r).1.processing_steps =
      d.processing_steps ++ ["registration"] := by
  unfold Registration.finish
  simp [transform_all_steps]

theorem reg_run_cases (e : Engine) (methods : RegMethods) (cache fs : Option Img)
    (d : ProcessingData) :
    (Registration.run e methods cache fs d).1 = d ∨
    (Registration.run e methods cache fs d).1.transforms.native_to_template.isSome
      = true := by
  unfold Registration.run
  cases hl : Registration.load_template cache fs with
  | error err => simp
  | ok p =>
    simp only []
    cases hi : d.native.image with
    | none =>
      cases methods.syn <;> cases methods.affine <;> cases methods.rigid <;> simp
    | some mov =>
      cases methods.syn <;> cases methods.affine <;> cases methods.rigid <;>
        simp [reg_finish_nt]

theorem roi_run_cases (e : Engine) (statistics : Option (List Stat))
    (cache fs : Option Img) (d : ProcessingData) :
    (ROIExtraction.run e statistics cache fs d).1 = d ∨
    ((ROIExtraction.run e statistics cache fs d).1.transforms = d.transforms ∧
      d.has_registration = true) := by
  unfold ROIExtraction.run
  cases hs : d.has_segmentation with
  | false => simp
  | true =>
    cases hreg : d.has_registration with
    | false => simp
    | true =>
      cases hl : ROIExtraction.load_atlas cache fs with
      | error err => simp [hl]
      | ok p => simp [hl]

theorem has_registration_touched (d : ProcessingData)
    (h : d.has_registration = true) : templateTouched d.template = true := by
  unfold ProcessingData.has_registration at h
  simp [templateTouched, h]

/-! ### C2 -/

/-- C2: in every container state reachable by running stage operations
on a freshly constructed `ProcessingData`, a populated template-space
field implies that `transforms.native_to_template` is set; no stage
operation assigns a template field before the registration transform
exists. -/
theorem C2_template_fields_require_transform (e : Engine)
    (d : ProcessingData) (hr : Reachable e d)
    (ht : templateTouched d.template = true) :
    d.transforms.native_to_template.isSome = true := by
  induction hr with
  | init img sid => simp [ProcessingData.init, templateTouched] at ht
  | step op hd ih =>
    rename_i d0
    cases op with
    | skull cfg =>
      obtain ⟨h1, h2⟩ := skull_run_template e cfg d0
      simp only [applyOp] at ht ⊢
      rw [h1] at ht
      rw [h2]
      exact ih ht
    | seg en primary =>
      obtain ⟨h1, h2⟩ := seg_run_template en primary d0
      simp only [applyOp] at ht ⊢
      rw [h1] at ht
      rw [h2]
      exact ih ht
    | pet =>
      obtain ⟨h1, h2⟩ := pet_run_template e d0
      simp only [applyOp] at ht ⊢
      rw [h1] at ht
      rw [h2]
      exact ih ht
    | qc htp cache fs =>
      obtain ⟨h1, h2⟩ := qc_run_template e htp cache fs d0
      simp only [applyOp] at ht ⊢
      rw [h1] at ht
      rw [h2]
      exact ih ht
    | reg methods cache fs =>
      simp only [applyOp] at ht ⊢
      rcases reg_run_cases e methods cache fs d0 with heq | hnt
      · rw [heq] at ht ⊢
        exact ih ht
      · exact hnt
    | roi statistics cache fs =>
      simp only [applyOp] at ht ⊢
      rcases roi_run_cases e statistics cache fs d0 with heq | ⟨htr, hreg⟩
      · rw [heq] at ht ⊢
        exact ih ht
      · rw [htr]
        exact ih (has_registration_touched d0 hreg)

/-! ### Concrete engine and containers for closed instances -/

/-- A concrete engine assignment used to evaluate the embedded code on
closed inputs. -/
def sampleEngine : Engine :=
  { applyTransforms := fun _ mov _ _ => mov
    registration := fun _ mov _ =>
      { warpedmovout := mov, fwdtransforms := ["fwd"], invtransforms := ["inv"] }
    brainExtraction := fun img => img.map fun v => if 0 < v then 1 else 0
    getMask := fun img t => img.map fun v => if t < v then 1 else 0
    imageMutualInformation := fun _ _ => 0
    sqrtQ := fun q => q }

/-! ### C1 -/

/-- C1: `PETProcessor.run` on a container built by
`ProcessingData.__init__` with no PET supplied does not perform the
claimed pass-through: because the constructor never creates the `pet`
attribute (and accepts no PET argument, although `pipeline.py` line 145
passes one), reading `data.pet["original"]` raises `AttributeError`
instead of returning the container unchanged. -/
theorem C1_pet_run_raises_on_fresh_container :
    (PETProcessor.run sampleEngine (ProcessingData.init [1] "sub-01")).2 =
      some "AttributeError: ProcessingData object has no attribute pet" ∧
    (PETProcessor.run sampleEngine (ProcessingData.init [1] "sub-01")).1 =
      ProcessingData.init [1] "sub-01" :=
  ⟨rfl, rfl⟩

/-- Witness for C2: after a successful registration operation on a
fresh container, a template field is populated and the theorem yields
that the forward transform is set. -/
theorem C2_witness :
    templateTouched ((applyOp sampleEngine
        (.reg ⟨true, false, false⟩ none (some [1]))
        (ProcessingData.init [1] "sub-01")).1.template) = true ∧
    ((applyOp sampleEngine (.reg ⟨true, false, false⟩ none (some [1]))
        (ProcessingData.init [1] "sub-01")).1.transforms.native_to_template.isSome)
      = true := by
  constructor
  · rfl
  · exact C2_template_fields_require_transform sampleEngine _
      (Reachable.step (.reg ⟨true, false, false⟩ none (some [1]))
        (Reachable.init [1] "sub-01")) (by rfl)

/-! ### C3 -/

theorem seg_applyResult_steps (d : ProcessingData) (r : SegResult) :
    (Segmentation.applyResult d r).processing_steps =
      d.processing_steps ++ ["segmentation"] := by
  unfold Segmentation.applyResult
  split <;> simp

/-- C3 counterexample: a single skull-stripping stage run with both
methods enabled succeeds and appends two `"skull_stripping"` entries
(one per sub-method, not one per stage), and a run with no enabled
method returns successfully without appending anything. -/
theorem C3_counterexample :
    ((SkullStripping.run sampleEngine
        { antspynet_enabled := true, ants_enabled := true, threshold := 1/10 }
        (ProcessingData.init [1] "sub-01")).2 = none ∧
     (SkullStripping.run sampleEngine
        { antspynet_enabled := true, ants_enabled := true, threshold := 1/10 }
        (ProcessingData.init [1] "sub-01")).1.processing_steps =
       ["skull_stripping", "skull_stripping"]) ∧
    ((SkullStripping.run sampleEngine
        { antspynet_enabled := false, ants_enabled := false, threshold := 1/10 }
        (ProcessingData.init [1] "sub-01")).2 = none ∧
     (SkullStripping.run sampleEngine
        { antspynet_enabled := false, ants_enabled := false, threshold := 1/10 }
        (ProcessingData.init [1] "sub-01")).1.processing_steps = []) :=
  ⟨⟨rfl, rfl⟩, ⟨rfl, rfl⟩⟩

/-- C3 (amended): across any sequence of stage runs the log only grows
in execution order (each operation appends a — possibly empty — suffix
and never reorders or truncates).  Segmentation, registration, ROI
extraction and quality control append exactly their stage name on
success and append nothing when they raise; PET appends its name
exactly when PET data was processed, appending nothing on its
pass-through and nothing when it raises.  The skull-stripping
dispatcher instead appends one `"skull_stripping"` entry per enabled
sub-method: two with both methods enabled, none (with a successful
return) when no method is enabled. -/
theorem C3_amended_monotonic_log (e : Engine) :
    (∀ op d, ∃ t, (applyOp e op d).1.processing_steps =
        d.processing_steps ++ t) ∧
    (∀ cfg d, (SkullStripping.run e cfg d).2 = none →
      (SkullStripping.run e cfg d).1.processing_steps =
        d.processing_steps ++
          List.replicate ((if cfg.antspynet_enabled then 1 else 0) +
            (if cfg.ants_enabled then 1 else 0)) "skull_stripping") ∧
    (∀ en primary d, (Segmentation.run en primary d).2 = none →
      (Segmentation.run en primary d).1.processing_steps =
        d.processing_steps ++ ["segmentation"]) ∧
    (∀ methods cache fs d, (Registration.run e methods cache fs d).2 = none →
      (Registration.run e methods cache fs d).1.processing_steps =
        d.processing_steps ++ ["registration"]) ∧
    (∀ statistics cache fs d,
      (ROIExtraction.run e statistics cache fs d).2 = none →
      (ROIExtraction.run e statistics cache fs d).1.processing_steps =
        d.processing_steps ++ ["roi_extraction"]) ∧
    (∀ htp cache fs d, (QualityControl.run e htp cache fs d).2 = none →
      (QualityControl.run e htp cache fs d).1.processing_steps =
        d.processing_steps ++ ["quality_control"]) ∧
    (∀ d p, d.pet = some p → p.original.isSome = true →
      (PETProcessor.run e d).1.processing_steps =
        d.processing_steps ++ ["pet_processing"]) ∧
    (∀ d p, d.pet = some p → p.original = none →
      PETProcessor.run e d = (d, none)) ∧
    (∀ en primary d, (Segmentation.run en primary d).2.isSome = true →
      (Segmentation.run en primary d).1.processing_steps =
        d.processing_steps) ∧
    (∀ methods cache fs d,
      (Registration.run e methods cache fs d).2.isSome = true →
      (Registration.run e methods cache fs d).1.processing_steps =
        d.processing_steps) ∧
    (∀ statistics cache fs d,
      (ROIExtraction.run e statistics cache fs d).2.isSome = true →
      (ROIExtraction.run e statistics cache fs d).1.processing_steps =
        d.processing_steps) ∧
    (∀ htp cache fs d, (QualityControl.run e htp cache fs d).2.isSome = true →
      (QualityControl.run e htp cache fs d).1.processing_steps =
        d.processing_steps) ∧
    (∀ d, (PETProcessor.run e d).2.isSome = true →
      (PETProcessor.run e d).1.processing_steps = d.processing_steps) := by
  have hsk : ∀ cfg d, (SkullStripping.run e cfg d).2 = none →
      (SkullStripping.run e cfg d).1.processing_steps =
        d.processing_steps ++
          List.replicate ((if cfg.antspynet_enabled then 1 else 0) +
            (if cfg.ants_enabled then 1 else 0)) "skull_stripping" := by
    intro cfg d
    unfold SkullStripping.run SkullStripping.antspynet_extraction
      SkullStripping.ants_extraction
    cases ha : cfg.antspynet_enabled <;> cases hb : cfg.ants_enabled <;>
      cases h : d.native.image <;> simp [h, List.replicate]
  have hseg : ∀ en primary d, (Segmentation.run en primary d).2 = none →
      (Segmentation.run en primary d).1.processing_steps =
        d.processing_steps ++ ["segmentation"] := by
    intro en primary d
    unfold Segmentation.run Segmentation.atropos_segmentation
    cases en with
    | false => simp
    | true =>
      cases primary with
      | ok r => simp [seg_applyResult_steps]
      | error err =>
        cases h : Segmentation.simple_segmentation d <;>
          simp [h, seg_applyResult_steps]
  have hreg : ∀ methods cache fs d,
      (Registration.run e methods cache fs d).2 = none →
      (Registration.run e methods cache fs d).1.processing_steps =
        d.processing_steps ++ ["registration"] := by
    intro methods cache fs d
    unfold Registration.run
    cases hl : Registration.load_template cache fs with
    | error err => simp
    | ok p =>
      simp only []
      cases hi : d.native.image with
      | none =>
        cases methods.syn <;> cases methods.affine <;> cases methods.rigid <;>
          simp
      | some mov =>
        cases methods.syn <;> cases methods.affine <;> cases methods.rigid <;>
          simp [reg_finish_steps]
  have hroi : ∀ statistics cache fs d,
      (ROIExtraction.run e statistics cache fs d).2 = none →
      (ROIExtraction.run e statistics cache fs d).1.processing_steps =
        d.processing_steps ++ ["roi_extraction"] := by
    intro statistics cache fs d
    unfold ROIExtraction.run
    cases hs : d.has_segmentation <;> cases hr : d.has_registration <;> simp
    cases hl : ROIExtraction.load_atlas cache fs <;> simp [hl]
  have hqc : ∀ htp cache fs d, (QualityControl.run e htp cache fs d).2 = none →
      (QualityControl.run e htp cache fs d).1.processing_steps =
        d.processing_steps ++ ["quality_control"] := by
    intro htp cache fs d
    unfold QualityControl.run
    split
    · cases h : QualityControl.calculate_image_quality e d <;> simp [h]
    · simp
  have hpet1 : ∀ d p, d.pet = some p → p.original.isSome = true →
      (PETProcessor.run e d).1.processing_steps =
        d.processing_steps ++ ["pet_processing"] := by
    intro d p hp ho
    unfold PETProcessor.run
    rw [hp]
    cases h : p.original with
    | none => rw [h] at ho; simp at ho
    | some orig => simp [h]
  have hpet2 : ∀ d p, d.pet = some p → p.original = none →
      PETProcessor.run e d = (d, none) := by
    intro d p hp ho
    unfold PETProcessor.run
    rw [hp]
    simp [ho]
  have hsegErr : ∀ en primary d,
      (Segmentation.run en primary d).2.isSome = true →
      (Segmentation.run en primary d).1.processing_steps =
        d.processing_steps := by
    intro en primary d h
    unfold Segmentation.run Segmentation.atropos_segmentation at h ⊢
    cases en with
    | false => rfl
    | true =>
      cases primary with
      | ok r => simp at h
      | error e2 =>
        cases hs : Segmentation.simple_segmentation d with
        | ok r => rw [hs] at h; simp at h
        | error e3 => simp [hs]
  have hregErr : ∀ methods cache fs d,
      (Registration.run e methods cache fs d).2.isSome = true →
      (Registration.run e methods cache fs d).1.processing_steps =
        d.processing_steps := by
    intro methods cache fs d h
    unfold Registration.run at h ⊢
    cases hl : Registration.load_template cache fs with
    | error err => simp
    | ok p =>
      rw [hl] at h
      simp only [] at h ⊢
      cases hi : d.native.image with
      | none =>
        cases methods.syn <;> cases methods.affine <;> cases methods.rigid <;>
          simp [hi]
      | some mov =>
        rw [hi] at h
        cases hsy : methods.syn with
        | true =>
          rw [hsy] at h
          simp [Registration.finish] at h
        | false =>
          cases haf : methods.affine with
          | true =>
            rw [hsy, haf] at h
            simp [Registration.finish] at h
          | false =>
            cases hri : methods.rigid with
            | true =>
              rw [hsy, haf, hri] at h
              simp [Registration.finish] at h
            | false => simp [hsy, haf, hri]
  have hroiErr : ∀ statistics cache fs d,
      (ROIExtraction.run e statistics cache fs d).2.isSome = true →
      (ROIExtraction.run e statistics cache fs d).1.processing_steps =
        d.processing_steps := by
    intro statistics cache fs d h
    unfold ROIExtraction.run at h ⊢
    cases hs : d.has_segmentation with
    | false => simp [hs]
    | true =>
      cases hr : d.has_registration with
      | false => simp [hs, hr]
      | true =>
        cases hl : ROIExtraction.load_atlas cache fs with
        | error err => simp [hs, hr, hl]
        | ok p =>
          rw [hs, hr, hl] at h
          simp at h
  have hqcErr : ∀ htp cache fs d,
      (QualityControl.run e htp cache fs d).2.isSome = true →
      (QualityControl.run e htp cache fs d).1.processing_steps =
        d.processing_steps := by
    intro htp cache fs d h
    unfold QualityControl.run at h ⊢
    by_cases ho : d.native.original_image.isSome = true
    · simp only [if_pos ho] at h ⊢
      cases hc : QualityControl.calculate_image_quality e d with
      | error err => simp [hc]
      | ok snr => rw [hc] at h; simp at h
    · simp only [if_neg ho] at h
      simp at h
  have hpetErr : ∀ d, (PETProcessor.run e d).2.isSome = true →
      (PETProcessor.run e d).1.processing_steps = d.processing_steps := by
    intro d h
    unfold PETProcessor.run at h ⊢
    cases hp : d.pet with
    | none => simp
    | some p =>
      rw [hp] at h
      cases ho : p.original with
      | none => simp [ho] at h
      | some orig => simp [ho] at h
  refine ⟨?_, hsk, hseg, hreg, hroi, hqc, hpet1, hpet2, hsegErr, hregErr,
    hroiErr, hqcErr, hpetErr⟩
  intro op d
  cases op with
  | skull cfg =>
    show ∃ t, (SkullStripping.run e cfg d).1.processing_steps =
      d.processing_steps ++ t
    unfold SkullStripping.run SkullStripping.antspynet_extraction
      SkullStripping.ants_extraction
    cases ha : cfg.antspynet_enabled with
    | false =>
      cases hb : cfg.ants_enabled with
      | false => exact ⟨[], by simp [ha, hb]⟩
      | true =>
        cases h : d.native.image with
        | none => exact ⟨[], by simp [ha, hb, h]⟩
        | some img => exact ⟨["skull_stripping"], by simp [ha, hb, h]⟩
    | true =>
      cases h : d.native.image with
      | none =>
        cases hb : cfg.ants_enabled with
        | false => exact ⟨[], by simp [ha, hb, h]⟩
        | true => exact ⟨[], by simp [ha, hb, h]⟩
      | some img =>
        cases hb : cfg.ants_enabled with
        | false => exact ⟨["skull_stripping"], by simp [ha, hb, h]⟩
        | true =>
          exact ⟨["skull_stripping", "skull_stripping"], by simp [ha, hb, h]⟩
  | seg en primary =>
    show ∃ t, (Segmentation.run en primary d).1.processing_steps =
      d.processing_steps ++ t
    unfold Segmentation.run Segmentation.atropos_segmentation
    cases en with
    | false => exact ⟨[], by simp⟩
    | true =>
      cases primary with
      | ok r => exact ⟨["segmentation"], by simp [seg_applyResult_steps]⟩
      | error e2 =>
        cases h : Segmentation.simple_segmentation d with
        | ok r =>
          exact ⟨["segmentation"], by simp [h, seg_applyResult_steps]⟩
        | error e3 => exact ⟨[], by simp [h]⟩
  | reg methods cache fs =>
    show ∃ t, (Registration.run e methods cache fs d).1.processing_steps =
      d.processing_steps ++ t
    unfold Registration.run
    cases hl : Registration.load_template cache fs with
    | error err => exact ⟨[], by simp⟩
    | ok p =>
      simp only []
      cases hi : d.native.image with
      | none =>
        cases hsy : methods.syn with
        | true => exact ⟨[], by simp [hsy, hi]⟩
        | false =>
          cases haf : methods.affine with
          | true => exact ⟨[], by simp [hsy, haf, hi]⟩
          | false =>
            cases hri : methods.rigid with
            | true => exact ⟨[], by simp [hsy, haf, hri, hi]⟩
            | false => exact ⟨[], by simp [hsy, haf, hri]⟩
      | some mov =>
        cases hsy : methods.syn with
        | true => exact ⟨["registration"], by simp [hsy, hi, reg_finish_steps]⟩
        | false =>
          cases haf : methods.affine with
          | true =>
            exact ⟨["registration"], by simp [hsy, haf, hi, reg_finish_steps]⟩
          | false =>
            cases hri : methods.rigid with
            | true =>
              exact ⟨["registration"],
                by simp [hsy, haf, hri, hi, reg_finish_steps]⟩
            | false => exact ⟨[], by simp [hsy, haf, hri]⟩
  | pet =>
    show ∃ t, (PETProcessor.run e d).1.processing_steps =
      d.processing_steps ++ t
    unfold PETProcessor.run
    cases hp : d.pet with
    | none => exact ⟨[], by simp⟩
    | some p =>
      cases h : p.original with
      | none => exact ⟨[], by simp [h]⟩
      | some orig => exact ⟨["pet_processing"], by simp [h]⟩
  | roi statistics cache fs =>
    show ∃ t, (ROIExtraction.run e statistics cache fs d).1.processing_steps =
      d.processing_steps ++ t
    unfold ROIExtraction.run
    cases hs : d.has_segmentation with
    | false => exact ⟨[], by simp⟩
    | true =>
      cases hr : d.has_registration with
      | false => exact ⟨[], by simp⟩
      | true =>
        cases hl : ROIExtraction.load_atlas cache fs with
        | error err => exact ⟨[], by simp [hl]⟩
        | ok p => exact ⟨["roi_extraction"], by simp [hl]⟩
  | qc htp cache fs =>
    show ∃ t, (QualityControl.run e htp cache fs d).1.processing_steps =
      d.processing_steps ++ t
    unfold QualityControl.run
    split
    · cases h : QualityControl.calculate_image_quality e d with
      | error err => exact ⟨[], by simp [h]⟩
      | ok snr => exact ⟨["quality_control"], by simp [h]⟩
    · exact ⟨["quality_control"], by simp⟩

/-- Witness for C3 (amended) at concrete inputs: a successful
segmentation run on a fresh container appends exactly
`["segmentation"]`, and a raising segmentation run (no enabled method)
appends nothing. -/
theorem C3_amended_witness :
    ((Segmentation.run true
        (.ok { segmentation := [1], probabilityimages := [] })
        (ProcessingData.init [1] "sub-01")).1.processing_steps =
      [] ++ ["segmentation"]) ∧
    ((Segmentation.run false
        (.ok { segmentation := [1], probabilityimages := [] })
        (ProcessingData.init [1] "sub-01")).1.processing_steps = []) :=
  ⟨(C3_amended_monotonic_log sampleEngine).2.2.1 true
    (.ok { segmentation := [1], probabilityimages := [] })
    (ProcessingData.init [1] "sub-01") rfl,
   (C3_amended_monotonic_log sampleEngine).2.2.2.2.2.2.2.2.1 false
    (.ok { segmentation := [1], probabilityimages := [] })
    (ProcessingData.init [1] "sub-01") rfl⟩

/-! ### C4 -/

/-- C4: `transform_to_template` resamples `native[field_name]` into
template space and writes `template[field_name]` when the transform,
the template image and the native field are all present; if any of the
three is absent the call is a no-op that raises no error and leaves the
container unchanged. -/
theorem C4_transform_to_template_contract (e : Engine) (d : ProcessingData)
    (f : FieldName) (i : Interp) :
    (∀ tl fix mov, d.transforms.native_to_template = some tl →
      d.template.image = some fix → d.native.get f = some mov →
      d.transform_to_template e f i =
        { d with template := d.template.set f (e.applyTransforms fix mov tl i) }) ∧
    (d.transforms.native_to_template = none ∨ d.template.image = none ∨
        d.native.get f = none →
      d.transform_to_template e f i = d) := by
  constructor
  · intro tl fix mov h1 h2 h3
    unfold ProcessingData.transform_to_template
    rw [h1, h3, h2]
  · intro h
    unfold ProcessingData.transform_to_template
    cases hnt : d.transforms.native_to_template with
    | none => rfl
    | some tl =>
      cases hg : d.native.get f with
      | none => cases d.template.image <;> rfl
      | some mov =>
        cases hti : d.template.image with
        | none => rfl
        | some fix =>
          rcases h with h | h | h
          · simp [h] at hnt
          · simp [h] at hti
          · simp [h] at hg

/-- A container with registration done and a native brain mask, used to
instantiate theorems on the populated-prerequisite branch. -/
def sampleReady : ProcessingData :=
  { ProcessingData.init [1, 2] "sub-01" with
    native := { (ProcessingData.init [1, 2] "sub-01").native with
      brain_mask := some [1, 0] }
    template := { (ProcessingData.init [1, 2] "sub-01").template with
      image := some [1, 1] }
    transforms :=
      { native_to_template := some ["fwd"], template_to_native := some ["inv"] } }

/-- Witness for C4: the write branch on a container with all
prerequisites, and the no-op branch on a fresh container. -/
theorem C4_witness :
    (sampleReady.transform_to_template sampleEngine .brain_mask
        .nearestNeighbor =
      { sampleReady with
        template := sampleReady.template.set .brain_mask (sampleEngine.applyTransforms [1, 1] [1, 0] ["fwd"] .nearestNeighbor) }) ∧
    ((ProcessingData.init [1] "sub-02").transform_to_template sampleEngine
        .brain_mask .linear = ProcessingData.init [1] "sub-02") :=
  ⟨(C4_transform_to_template_contract sampleEngine sampleReady .brain_mask
      .nearestNeighbor).1 ["fwd"] [1, 1] [1, 0] rfl rfl rfl,
   (C4_transform_to_template_contract sampleEngine
      (ProcessingData.init [1] "sub-02") .brain_mask .linear).2 (Or.inl rfl)⟩

/-! ### C5 -/

/-- Per-voxel meaning of the three sequential masked
assignments: class 3 above the 66th percentile, class 2 above the 33rd,
class 1 for the remaining positive voxels, 0 elsewhere. -/
def tercileLabel (p33 p66 v : ℚ) : ℚ :=
  if p66 < v then 3 else if p33 < v then 2 else if 0 < v then 1 else 0

theorem tercile_chain (p33 p66 : ℚ) (img : List ℚ) :
    maskedAssign (maskedAssign (maskedAssign
        (List.replicate img.length (0 : ℚ)) img (fun v => 0 < v) 1)
      img (fun v => p33 < v) 2) img (fun v => p66 < v) 3 =
      img.map (tercileLabel p33 p66) := by
  induction img with
  | nil => rfl
  | cons x xs ih =>
    simp only [List.length_cons, List.replicate_succ, maskedAssign,
      List.zip_cons_cons, List.map_cons] at ih ⊢
    rw [List.cons.injEq]
    constructor
    · unfold tercileLabel
      by_cases h66 : p66 < x <;> by_cases h33 : p33 < x <;>
        by_cases h0 : (0 : ℚ) < x <;> simp [h66, h33, h0]
    · exact ih

/-- C5: the percentile fallback runs exactly when the primary
classifier raises; it hard-fails exactly when the mask-multiplied image
has no positive voxel, and otherwise labels each voxel by the
33rd/66th-percentile split of the positive voxels (1 = lowest tercile =
CSF, 2 = middle = GM, 3 = top = WM) and emits the label volume together
with the three binary indicator probability volumes. -/
theorem C5_segmentation_fallback (d : ProcessingData) (r : SegResult)
    (msg : String) (img : Img) (him : d.native.image = some img) :
    (Segmentation.atropos_segmentation (.ok r) d =
      (Segmentation.applyResult d r, none)) ∧
    (Segmentation.atropos_segmentation (.error msg) d =
      (match Segmentation.simple_segmentation d with
       | .ok fr => (Segmentation.applyResult d fr, none)
       | .error err => (d, some err))) ∧
    (((Segmentation.masked_image img d.native.brain_mask).filter
        (fun v => 0 < v)).length = 0 ↔
      Segmentation.simple_segmentation d =
        .error "No brain voxels found for segmentation") ∧
    (∀ fr, Segmentation.simple_segmentation d = .ok fr →
      fr.segmentation =
        (Segmentation.masked_image img d.native.brain_mask).map
          (tercileLabel
            (npPercentile ((Segmentation.masked_image img
              d.native.brain_mask).filter fun v => 0 < v) 33)
            (npPercentile ((Segmentation.masked_image img
              d.native.brain_mask).filter fun v => 0 < v) 66)) ∧
      fr.probabilityimages =
        [fr.segmentation.map fun v => if v = 1 then (1 : ℚ) else 0,
         fr.segmentation.map fun v => if v = 2 then (1 : ℚ) else 0,
         fr.segmentation.map fun v => if v = 3 then (1 : ℚ) else 0]) := by
  refine ⟨rfl, rfl, ?_, ?_⟩
  · unfold Segmentation.simple_segmentation
    rw [him]
    simp only []
    by_cases h : ((Segmentation.masked_image img d.native.brain_mask).filter
        fun v => 0 < v).length = 0
    · simp [h]
    · simp [h]
  · intro fr hfr
    unfold Segmentation.simple_segmentation at hfr
    rw [him] at hfr
    simp only [] at hfr
    split at hfr
    · simp at hfr
    · simp only [Except.ok.injEq] at hfr
      subst hfr
      exact ⟨(tercile_chain _ _ _), rfl⟩

/-- Witness for C5: the primary-success branch at a concrete container,
plus a direct evaluation of the fallback on the trimodal image
`[1, 2, 3]` (33rd percentile 83/50, 66th percentile 58/25): labels
`[1, 2, 3]` and binary indicator probability maps. -/
theorem C5_witness :
    (Segmentation.atropos_segmentation
        (.ok { segmentation := [1], probabilityimages := [] })
        (ProcessingData.init [1, 2, 3] "sub-01") =
      (Segmentation.applyResult (ProcessingData.init [1, 2, 3] "sub-01")
        { segmentation := [1], probabilityimages := [] }, none)) ∧
    Segmentation.simple_segmentation (ProcessingData.init [1, 2, 3] "sub-01") =
      .ok { segmentation := [1, 2, 3]
            probabilityimages := [[1, 0, 0], [0, 1, 0], [0, 0, 1]] } := by
  constructor
  · exact (C5_segmentation_fallback (ProcessingData.init [1, 2, 3] "sub-01")
      { segmentation := [1], probabilityimages := [] } "err" [1, 2, 3] rfl).1
  · have h33 : ((33 : ℚ)/50).floor = 0 := by rw [Rat.floor_def']; norm_num
    have h66 : ((33 : ℚ)/25).floor = 1 := by rw [Rat.floor_def']; norm_num
    unfold Segmentation.simple_segmentation Segmentation.masked_image
    norm_num [ProcessingData.init, npPercentile, npSort, List.insertionSort,
      List.orderedInsert, maskedAssign, List.replicate, List.zip, List.zipWith,
      h33, h66]

/-! ### C6 -/

/-- C6: ROI extraction raises whenever a precondition — segmentation
results in either space AND completed registration — is unmet, raises
a fatal error when the configured atlas file is missing and not yet
cached, and loads the atlas lazily at most once per stage instance:
a cached atlas is reused without consulting the filesystem, an uncached
load fills the cache from the file. -/
theorem C6_roi_preconditions (e : Engine) (statistics : Option (List Stat))
    (cache fs : Option Img) (d : ProcessingData) :
    (¬(d.has_segmentation = true ∧ d.has_registration = true) →
      (ROIExtraction.run e statistics cache fs d).2.isSome = true) ∧
    (d.has_segmentation = true → d.has_registration = true → cache = none →
      fs = none →
      (ROIExtraction.run e statistics cache fs d).2 =
        some "Atlas file not found") ∧
    (∀ a, ROIExtraction.load_atlas (some a) fs = .ok (some a, a)) ∧
    (∀ a, ROIExtraction.load_atlas none (some a) = .ok (some a, a)) := by
  refine ⟨?_, ?_, fun a => rfl, fun a => rfl⟩
  · intro h
    unfold ROIExtraction.run
    cases hs : d.has_segmentation with
    | false => simp
    | true =>
      cases hr : d.has_registration with
      | false => simp
      | true => exact absurd ⟨hs, hr⟩ h
  · intro hs hr hc hf
    subst hc hf
    unfold ROIExtraction.run
    rw [hs, hr]
    rfl

/-- A container with registration done, a native GM probability map and
template-space GM/CSF probability maps, as ROI extraction sees it. -/
def sampleRoiInput : ProcessingData :=
  let d0 := ProcessingData.init [1, 2] "sub-01"
  { d0 with
    native := { d0.native with gm_probability := some [1, 0] }
    template := { d0.template with
      image := some [1, 1]
      gm_probability := some [1, 0]
      csf_probability := some [1, 0] }
    transforms :=
      { native_to_template := some ["fwd"], template_to_native := some ["inv"] } }

/-- Witness for C6: a fresh container (no segmentation) makes the run
raise; a segmented and registered container with no cached atlas and
a missing atlas file gets the fatal missing-file error. -/
theorem C6_witness :
    (ROIExtraction.run sampleEngine none none none
        (ProcessingData.init [1] "sub-01")).2.isSome = true ∧
    (ROIExtraction.run sampleEngine none none none sampleRoiInput).2 =
      some "Atlas file not found" :=
  ⟨(C6_roi_preconditions sampleEngine none none none
      (ProcessingData.init [1] "sub-01")).1 (by simp [ProcessingData.init,
        ProcessingData.has_segmentation]),
   (C6_roi_preconditions sampleEngine none none none sampleRoiInput).2.1
      rfl rfl rfl rfl⟩

/-! ### C7 -/

theorem positive_labels_sorted (atlas : List ℚ) :
    List.Sorted (· < ·) (ROIExtraction.positive_labels atlas) := by
  have hs : List.Sorted (· ≤ ·) (npSort atlas) :=
    List.sorted_insertionSort _ _
  have hd : List.Sorted (· ≤ ·) (npSort atlas).dedup :=
    List.Pairwise.sublist (List.dedup_sublist _) hs
  have hn : (npSort atlas).dedup.Nodup := List.nodup_dedup _
  have hlt : List.Sorted (· < ·) (npSort atlas).dedup :=
    (hd.and hn).imp fun h => lt_of_le_of_ne h.1 h.2
  exact List.Pairwise.sublist (List.filter_sublist _) hlt

theorem flatten_singleton_rows {α : Type} (l : List (List α))
    (h : ∀ r ∈ l, r.length = 1) : l.flatten.length = l.length := by
  induction l with
  | nil => rfl
  | cons r rs ih =>
    simp only [List.flatten_cons, List.length_append, List.length_cons,
      h r (by simp)]
    rw [ih fun q hq => h q (by simp [hq])]
    omega

/-- C7 (amended): when ROI extraction runs it produces one feature
array for each of the GM and WM tissue probability maps available in
template space — never for CSF, which the code does not extract; each
array has one row per unique positive atlas label, rows in ascending
label order, one column per configured statistic, flattened to 1-D when
exactly one statistic is configured, each row holding the configured
statistics of the ROI of its label with volume equal to the ROI voxel
count. -/
theorem C7_amended_roi_features (e : Engine) (statistics : List Stat)
    (atlas : Img) (d : ProcessingData) :
    ((ROIExtraction.extract_roi_features e statistics atlas d).lookup
        "gm_features" =
      d.template.gm_probability.map fun gm =>
        ROIExtraction.extract_features_for_tissue e statistics gm atlas
          (ROIExtraction.positive_labels atlas)) ∧
    ((ROIExtraction.extract_roi_features e statistics atlas d).lookup
        "wm_features" =
      d.template.wm_probability.map fun wm =>
        ROIExtraction.extract_features_for_tissue e statistics wm atlas
          (ROIExtraction.positive_labels atlas)) ∧
    ((ROIExtraction.extract_roi_features e statistics atlas d).lookup
        "csf_features" = none) ∧
    List.Sorted (· < ·) (ROIExtraction.positive_labels atlas) ∧
    (∀ tissue,
      (statistics.length = 1 →
        ∃ vals, ROIExtraction.extract_features_for_tissue e statistics tissue
            atlas (ROIExtraction.positive_labels atlas) = .flat vals ∧
          vals.length = (ROIExtraction.positive_labels atlas).length) ∧
      (statistics.length ≠ 1 →
        ∃ rows, ROIExtraction.extract_features_for_tissue e statistics tissue
            atlas (ROIExtraction.positive_labels atlas) = .mat rows ∧
          rows.length = (ROIExtraction.positive_labels atlas).length ∧
          ∀ row ∈ rows, row.length = statistics.length)) ∧
    (∀ tissue rows,
      ROIExtraction.extract_features_for_tissue e statistics tissue atlas
          (ROIExtraction.positive_labels atlas) = .mat rows →
      ∀ i (h1 : i < rows.length)
        (h2 : i < (ROIExtraction.positive_labels atlas).length),
        rows.get ⟨i, h1⟩ = statistics.map fun stat =>
          statValue e stat
            (ROIExtraction.roi_values tissue atlas
              ((ROIExtraction.positive_labels atlas).get ⟨i, h2⟩))
            (ROIExtraction.roi_count atlas
              ((ROIExtraction.positive_labels atlas).get ⟨i, h2⟩))) ∧
    (∀ vals cnt, statValue e .volume vals cnt = (cnt : ℚ)) := by
  refine ⟨?_, ?_, ?_, positive_labels_sorted atlas, ?_, ?_, fun vals cnt => rfl⟩
  · unfold ROIExtraction.extract_roi_features
    cases hg : d.template.gm_probability <;>
      cases hw : d.template.wm_probability <;>
      simp [List.lookup]
  · unfold ROIExtraction.extract_roi_features
    cases hg : d.template.gm_probability <;>
      cases hw : d.template.wm_probability <;>
      simp [List.lookup]
  · unfold ROIExtraction.extract_roi_features
    cases hg : d.template.gm_probability <;>
      cases hw : d.template.wm_probability <;>
      simp [List.lookup]
  · intro tissue
    constructor
    · intro h1
      unfold ROIExtraction.extract_features_for_tissue
      rw [if_pos h1]
      refine ⟨_, rfl, ?_⟩
      rw [flatten_singleton_rows]
      · simp
      · intro r hr
        simp only [List.mem_map] at hr
        obtain ⟨roi, _, hroi⟩ := hr
        simp [← hroi, h1]
    · intro h1
      unfold ROIExtraction.extract_features_for_tissue
      rw [if_neg h1]
      refine ⟨_, rfl, by simp, ?_⟩
      intro row hrow
      simp only [List.mem_map] at hrow
      obtain ⟨roi, _, hroi⟩ := hrow
      simp [← hroi]
  · intro tissue rows hrows i h1 h2
    unfold ROIExtraction.extract_features_for_tissue at hrows
    split at hrows
    · exact absurd hrows (by simp)
    · simp only [FeatArray.mat.injEq] at hrows
      subst hrows
      simp [List.get_eq_getElem, List.getElem_map]

/-- C7 counterexample: on a container whose template space holds both a
CSF and a GM probability map, a successful ROI extraction produces a
feature dictionary with a GM entry but no CSF entry, although the CSF
map is available in template space. -/
theorem C7_counterexample :
    (ROIExtraction.run sampleEngine none none (some [1, 2])
        sampleRoiInput).2 = none ∧
    sampleRoiInput.template.csf_probability.isSome = true ∧
    ∃ fts, (ROIExtraction.run sampleEngine none none (some [1, 2])
        sampleRoiInput).1.template.roi_features = some fts ∧
      fts.lookup "csf_features" = none ∧
      (fts.lookup "gm_features").isSome = true := by
  refine ⟨rfl, rfl, _, rfl, ?_, ?_⟩ <;> rfl

/-- Witness for C7 (amended): the CSF entry is absent on the concrete
container, the concrete atlas labels are strictly sorted, and one
configured statistic produces a flat array of one value per label. -/
theorem C7_amended_witness :
    (ROIExtraction.extract_roi_features sampleEngine [.volume] [1, 2]
        sampleRoiInput).lookup "csf_features" = none ∧
    List.Sorted (· < ·) (ROIExtraction.positive_labels [1, 2]) ∧
    ∃ vals, ROIExtraction.extract_features_for_tissue sampleEngine [.volume]
        [1, 0] [1, 2] (ROIExtraction.positive_labels [1, 2]) = .flat vals ∧
      vals.length = (ROIExtraction.positive_labels [1, 2]).length :=
  ⟨(C7_amended_roi_features sampleEngine [.volume] [1, 2]
      sampleRoiInput).2.2.1,
   (C7_amended_roi_features sampleEngine [.volume] [1, 2]
      sampleRoiInput).2.2.2.1,
   ((C7_amended_roi_features sampleEngine [.volume] [1, 2]
      sampleRoiInput).2.2.2.2.1 [1, 0]).1 rfl⟩

/-! ### C8 -/

/-- C8: with the template loadable, exactly one registration method is
executed, selected in the fixed preference order syn (non-linear) over
affine over rigid regardless of how many are enabled; with none enabled
the stage raises the fatal configuration error. -/
theorem C8_registration_selection (e : Engine) (m : RegMethods)
    (fs : Option Img) (tmpl : Img) (d : ProcessingData) (mov : Img)
    (him : d.native.image = some mov) :
    (m.syn = true →
      Registration.run e m (some tmpl) fs d =
        Registration.finish e d (e.registration tmpl mov .SyN)) ∧
    (m.syn = false → m.affine = true →
      Registration.run e m (some tmpl) fs d =
        Registration.finish e d (e.registration tmpl mov .Affine)) ∧
    (m.syn = false → m.affine = false → m.rigid = true →
      Registration.run e m (some tmpl) fs d =
        Registration.finish e d (e.registration tmpl mov .Rigid)) ∧
    (m.syn = false → m.affine = false → m.rigid = false →
      Registration.run e m (some tmpl) fs d =
        (d, some "No registration method enabled")) := by
  refine ⟨?_, ?_, ?_, ?_⟩ <;> intros <;>
    unfold Registration.run <;>
    simp [Registration.load_template, him, *]

/-- Witness for C8: with all three methods enabled the non-linear
method is selected; with none enabled the run raises. -/
theorem C8_witness :
    (Registration.run sampleEngine
        { syn := true, affine := true, rigid := true } (some [1]) none
        sampleReady =
      Registration.finish sampleEngine sampleReady
        (sampleEngine.registration [1] [1, 2] .SyN)) ∧
    (Registration.run sampleEngine
        { syn := false, affine := false, rigid := false } (some [1]) none
        sampleReady = (sampleReady, some "No registration method enabled")) :=
  ⟨(C8_registration_selection sampleEngine
      { syn := true, affine := true, rigid := true } none [1] sampleReady
      [1, 2] rfl).1 rfl,
   (C8_registration_selection sampleEngine
      { syn := false, affine := false, rigid := false } none [1] sampleReady
      [1, 2] rfl).2.2.2 rfl rfl rfl⟩

/-! ### C9 -/

/-- C9 counterexample: a classifier result with four probability
outputs still populates all three tissue probability fields, so the
fields are not populated "exactly when" the classifier returned exactly
three outputs. -/
theorem C9_counterexample :
    ((Segmentation.applyResult (ProcessingData.init [1] "sub-01")
        { segmentation := [1], probabilityimages := [[1], [2], [3], [4]] }
      ).native.csf_probability.isSome = true ∧
     (Segmentation.applyResult (ProcessingData.init [1] "sub-01")
        { segmentation := [1], probabilityimages := [[1], [2], [3], [4]] }
      ).native.gm_probability.isSome = true ∧
     (Segmentation.applyResult (ProcessingData.init [1] "sub-01")
        { segmentation := [1], probabilityimages := [[1], [2], [3], [4]] }
      ).native.wm_probability.isSome = true) ∧
    ([[1], [2], [3], [4]] : List Img).length ≠ 3 :=
  ⟨⟨rfl, rfl, rfl⟩, by decide⟩

/-- C9 (amended): after the segmentation stage stores a classifier
result, `segmentation_labels` is always set; the three tissue
probability fields are assigned (to the first three probability
outputs, hence all populated) exactly when the classifier returned at
least three probability outputs, and with fewer than three they are
left unchanged while the stage raises no error. -/
theorem C9_amended_probability_population (d : ProcessingData)
    (r : SegResult) :
    ((Segmentation.applyResult d r).native.segmentation_labels =
      some r.segmentation) ∧
    (3 ≤ r.probabilityimages.length →
      (Segmentation.applyResult d r).native.csf_probability =
          r.probabilityimages.get? 0 ∧
        (Segmentation.applyResult d r).native.gm_probability =
          r.probabilityimages.get? 1 ∧
        (Segmentation.applyResult d r).native.wm_probability =
          r.probabilityimages.get? 2 ∧
        (Segmentation.applyResult d r).native.csf_probability.isSome = true ∧
        (Segmentation.applyResult d r).native.gm_probability.isSome = true ∧
        (Segmentation.applyResult d r).native.wm_probability.isSome = true) ∧
    (r.probabilityimages.length < 3 →
      (Segmentation.applyResult d r).native.csf_probability =
          d.native.csf_probability ∧
        (Segmentation.applyResult d r).native.gm_probability =
          d.native.gm_probability ∧
        (Segmentation.applyResult d r).native.wm_probability =
          d.native.wm_probability) ∧
    (Segmentation.atropos_segmentation (.ok r) d).2 = none := by
  refine ⟨?_, ?_, ?_, rfl⟩
  · unfold Segmentation.applyResult
    split <;> rfl
  · intro h
    unfold Segmentation.applyResult
    simp only [if_pos h]
    refine ⟨by trivial, by trivial, by trivial, ?_, ?_, ?_⟩ <;>
      · rw [List.get?_eq_getElem?, List.getElem?_eq_getElem (by omega)]
        rfl
  · intro h
    unfold Segmentation.applyResult
    simp only [if_neg (show ¬3 ≤ r.probabilityimages.length by omega)]
    refine ⟨?_, ?_, ?_⟩ <;> trivial

/-- Witness for C9 (amended): a result with exactly three probability
outputs populates the three fields; one with a single output leaves
them unchanged on a fresh container while raising no error. -/
theorem C9_amended_witness :
    ((Segmentation.applyResult (ProcessingData.init [1] "sub-01")
        { segmentation := [1], probabilityimages := [[1], [2], [3]] }
      ).native.csf_probability.isSome = true) ∧
    ((Segmentation.applyResult (ProcessingData.init [1] "sub-01")
        { segmentation := [1], probabilityimages := [[1]] }
      ).native.csf_probability =
        (ProcessingData.init [1] "sub-01").native.csf_probability) :=
  ⟨((C9_amended_probability_population (ProcessingData.init [1] "sub-01")
      { segmentation := [1], probabilityimages := [[1], [2], [3]] }).2.1
      (by decide)).2.2.2.1,
   ((C9_amended_probability_population (ProcessingData.init [1] "sub-01")
      { segmentation := [1], probabilityimages := [[1]] }).2.2.1
      (by decide)).1⟩

/-! ### C10 -/

theorem imgMul_zero_outside :
    ∀ (a b : Img) (i : ℕ), i < (imgMul a b).length → b.getD i 1 = 0 →
      (imgMul a b).getD i 0 = 0 := by
  intro a
  induction a with
  | nil => intro b i h _; simp [imgMul] at h
  | cons x xs ih =>
    intro b i h hb
    cases b with
    | nil => simp [imgMul] at h
    | cons y ys =>
      cases i with
      | zero =>
        simp only [List.getD, List.get?_cons_zero, List.getElem?_cons_zero,
          Option.getD_some] at hb
        simp [imgMul, List.getD, hb]
      | succ n =>
        simp only [imgMul, List.zipWith_cons_cons, List.length_cons,
          Nat.succ_lt_succ_iff] at h
        simp only [List.getD_cons_succ] at hb ⊢
        exact ih ys n h hb

/-- C10 counterexample: the antspynet skull-stripping method also
appends `"skull_stripping"` to `processing_steps`, so it is not the
case that every container field other than `native.image`,
`native.brain_mask` and `native.original_image` is unchanged. -/
theorem C10_counterexample :
    (SkullStripping.antspynet_extraction sampleEngine
        (ProcessingData.init [1, 2] "sub-01")).1.processing_steps ≠
      (ProcessingData.init [1, 2] "sub-01").processing_steps := by
  decide

/-- C10 (amended): each skull-stripping method replaces `native.image`
by the voxelwise product of the previous image and the computed brain
mask, sets `native.brain_mask` to that mask, keeps
`native.original_image` and every other native field, leaves template,
transforms, qc_metrics, pet and subject id unchanged, and appends one
`"skull_stripping"` entry to `processing_steps`; consequently every
voxel at which the mask is zero is zero in the new image. -/
theorem C10_amended_skull_frame (e : Engine) (d : ProcessingData)
    (img : Img) (him : d.native.image = some img) :
    ((SkullStripping.antspynet_extraction e d).2 = none ∧
      (SkullStripping.antspynet_extraction e d).1 =
        { d with
          native := { d.native with
            image := some (imgMul img (e.brainExtraction img))
            brain_mask := some (e.brainExtraction img) }
          processing_steps := d.processing_steps ++ ["skull_stripping"] }) ∧
    (∀ t, (SkullStripping.ants_extraction e t d).2 = none ∧
      (SkullStripping.ants_extraction e t d).1 =
        { d with
          native := { d.native with
            image := some (imgMul img (e.getMask img t))
            brain_mask := some (e.getMask img t) }
          processing_steps := d.processing_steps ++ ["skull_stripping"] }) ∧
    (∀ a b : Img, ∀ i, i < (imgMul a b).length → b.getD i 1 = 0 →
      (imgMul a b).getD i 0 = 0) := by
  refine ⟨?_, ?_, imgMul_zero_outside⟩
  · unfold SkullStripping.antspynet_extraction
    rw [him]
    exact ⟨rfl, rfl⟩
  · intro t
    unfold SkullStripping.ants_extraction
    rw [him]
    exact ⟨rfl, rfl⟩

/-- Witness for C10 (amended): the antspynet method on a concrete
container, and the zero-outside-mask consequence at a concrete voxel. -/
theorem C10_amended_witness :
    (SkullStripping.antspynet_extraction sampleEngine
        (ProcessingData.init [1, 2] "sub-01")).2 = none ∧
    (imgMul [1, 2] [1, 0]).getD 1 0 = 0 :=
  ⟨((C10_amended_skull_frame sampleEngine (ProcessingData.init [1, 2] "sub-01")
      [1, 2] rfl).1).1,
   (C10_amended_skull_frame sampleEngine (ProcessingData.init [1, 2] "sub-01")
      [1, 2] rfl).2.2 [1, 2] [1, 0] 1 (by decide) (by decide)⟩

end MRIPreprocess
